/-
  Verification of the SolidGPS integration (custom_components/solidgps).

  The definitions below are a shallow embedding of the Python source:
  api.py (SolidGPSApiClient.async_get_data, extract_location_data,
  SolidGPSAuthenticator), coordinator.py (SolidGPSCoordinator),
  binary_sensor.py (SolidGPSMovingSensor.is_on), device_tracker.py
  (SolidGPSTracker.latitude / longitude) and models.py (SolidGPSData).

  JSON values are modelled by the inductive `Jv`; Python floats are
  modelled by `Rat` (only parsing and identity of numeric values matter
  to the properties proved here, never float rounding); Python `None`
  is `Option.none`; a Python function that can raise carries its error
  cases in its result type, including a constructor for exceptions that
  the source does not catch.
-/
import Mathlib

namespace SolidGPS

/-- A JSON value as decoded by Python's `json` module.  Object fields keep
their textual order; duplicate keys resolve to the last occurrence, as in
Python dicts built by `json.loads`. -/
inductive Jv where
  | null
  | bool (b : Bool)
  | num (q : Rat)
  | str (s : String)
  | arr (xs : List Jv)
  | obj (kvs : List (String × Jv))
deriving Repr

/-- Raw lookup in a decoded JSON object: the value stored under `k`
(last occurrence wins, matching Python dict construction), or `none`
when the key is absent. -/
def jvLookupRaw (kvs : List (String × Jv)) (k : String) : Option Jv :=
  match kvs.reverse.find? (fun p => p.1 == k) with
  | some p => some p.2
  | none => none

/-- Python `d.get(k)`: JSON `null` is stored as Python `None`, so both an
absent key and a null value yield `none`. -/
def pyDictGet (kvs : List (String × Jv)) (k : String) : Option Jv :=
  match jvLookupRaw kvs k with
  | some Jv.null => none
  | v => v

/-- Python `d.get(k, default)`: the default is used only when the key is
absent; a stored JSON `null` is returned as is (Python `None`). -/
def pyDictGetD (kvs : List (String × Jv)) (k : String) (d : Jv) : Jv :=
  match jvLookupRaw kvs k with
  | none => d
  | some v => v

/-- Python truthiness of a decoded JSON value. -/
def jvTruthy : Jv → Bool
  | Jv.null => false
  | Jv.bool b => b
  | Jv.num q => q != 0
  | Jv.str s => s != ""
  | Jv.arr xs => !xs.isEmpty
  | Jv.obj kvs => !kvs.isEmpty

def isPySpace (c : Char) : Bool :=
  c = ' ' || c = '\t' || c = '\n' || c = '\r' || c = '\x0b' || c = '\x0c'

def isDigitCh (c : Char) : Bool :=
  '0' ≤ c && c ≤ '9'

def digitVal (c : Char) : Nat := c.toNat - 48

def takeDigits : List Char → List Char × List Char
  | [] => ([], [])
  | c :: cs =>
    if isDigitCh c then
      let (ds, r) := takeDigits cs
      (c :: ds, r)
    else ([], c :: cs)

def natOfDigits (ds : List Char) : Nat :=
  ds.foldl (fun a c => 10 * a + digitVal c) 0

def skipSpaces (cs : List Char) : List Char := cs.dropWhile isPySpace

/-- Leading sign: returns (negative?, rest). -/
def takeSign : List Char → Bool × List Char
  | '-' :: cs => (true, cs)
  | '+' :: cs => (false, cs)
  | cs => (false, cs)

/-- Optional exponent part of a float literal: `none` when an `e`/`E` is
present but not followed by digits (the whole parse fails, as in Python). -/
def takeExp : List Char → Option (Int × List Char)
  | [] => some (0, [])
  | c :: cs =>
    if c = 'e' || c = 'E' then
      let (eneg, cs2) := takeSign cs
      let (ed, cs3) := takeDigits cs2
      if ed.isEmpty then none
      else some ((if eneg then -(natOfDigits ed : Int) else (natOfDigits ed : Int)), cs3)
    else some (0, c :: cs)

def applyExp (m : Rat) (e : Int) : Rat :=
  if 0 ≤ e then m * (10 : Rat) ^ e.toNat else m / (10 : Rat) ^ (-e).toNat

/-- Models Python `float(s)` on the decimal-literal fragment: optional
surrounding whitespace, sign, digits with optional fractional part and
optional exponent (`inf`/`nan`/underscores are not modelled; no claim
involves them). `float("-")`, `float("")`, `float(".")` all fail. -/
def parseFloatChars (cs0 : List Char) : Option Rat :=
  let cs1 := skipSpaces cs0
  let (neg, cs2) := takeSign cs1
  let (ip, cs3) := takeDigits cs2
  let (fp, cs4) :=
    match cs3 with
    | '.' :: cs' => takeDigits cs'
    | _ => ([], cs3)
  if ip.isEmpty && fp.isEmpty then none
  else
    match takeExp cs4 with
    | none => none
    | some (e, rest) =>
      if (skipSpaces rest).isEmpty then
        let mant : Rat :=
          (natOfDigits ip : Rat) + (natOfDigits fp : Rat) / (10 : Rat) ^ fp.length
        let v := applyExp mant e
        some (if neg then -v else v)
      else none

/-- Models Python `int(s)` on string input: optional surrounding
whitespace, sign, then decimal digits only (`int("1.5")` fails). -/
def parseIntChars (cs0 : List Char) : Option Int :=
  let cs1 := skipSpaces cs0
  let (neg, cs2) := takeSign cs1
  let (ds, cs3) := takeDigits cs2
  if ds.isEmpty then none
  else if (skipSpaces cs3).isEmpty then
    some (if neg then -(natOfDigits ds : Int) else (natOfDigits ds : Int))
  else none

/-- Python `float(x)` on a decoded JSON value: numbers pass through,
strings are parsed, bools coerce (`float(True) = 1.0`); anything else
raises `TypeError`, which every call site in the source catches —
modelled as `none`. -/
def pyFloat : Jv → Option Rat
  | Jv.num q => some q
  | Jv.str s => parseFloatChars s.data
  | Jv.bool b => some (if b then 1 else 0)
  | _ => none

/-- Truncation toward zero, as Python `int()` applied to a float. -/
def ratTrunc (q : Rat) : Int := q.num.tdiv (q.den : Int)

/-- Python `int(x)` on a decoded JSON value (failures modelled as `none`,
caught at every call site in the source). -/
def pyInt : Jv → Option Int
  | Jv.num q => some (ratTrunc q)
  | Jv.str s => parseIntChars s.data
  | Jv.bool b => some (if b then 1 else 0)
  | _ => none

/-! ## extract_location_data (api.py lines 107-177) -/

/-- A location record as returned (non-`None`) by `extract_location_data`:
the flat dict `{latitude, longitude, speed, course, utc, quality, source}`. -/
structure Snapshot where
  latitude : Rat
  longitude : Rat
  speed : Option Rat := none
  course : Option Rat := none
  utc : Option Int := none
  quality : Option Jv := none
  source : String
deriving Repr

/-- Outcome of the Python statement block
`if gps_data and len(gps_data) > 0: entry = gps_data[0]` for one list value
`v` obtained from `device.get(...)`. -/
inductive SelOut where
  | empty
  | first (e : Jv)
  | typeError
deriving Repr

/-- `v and len(v) > 0` followed by `v[0]`: falsy values skip the branch;
truthy values without `len` (numbers, `True`) raise `TypeError`; a truthy
string yields its first character; a non-empty array its first element; a
non-empty object passes the `len` test but `v[0]` then raises `KeyError`
(JSON object keys are strings, never the integer `0`).  The `TypeError` /
`KeyError` here are outside the `try` block and escape the function. -/
def selectFirst : Option Jv → SelOut
  | none => SelOut.empty
  | some Jv.null => SelOut.empty
  | some (Jv.bool false) => SelOut.empty
  | some (Jv.bool true) => SelOut.typeError
  | some (Jv.num q) => if q == 0 then SelOut.empty else SelOut.typeError
  | some (Jv.str s) =>
    match s.data with
    | [] => SelOut.empty
    | c :: _ => SelOut.first (Jv.str (String.mk [c]))
  | some (Jv.arr []) => SelOut.empty
  | some (Jv.arr (e :: _)) => SelOut.first e
  | some (Jv.obj []) => SelOut.empty
  | some (Jv.obj (_ :: _)) => SelOut.typeError

/-- Outcome of the device lookup
`results = api_response.get("Results", {}); device = results.get(imei)`. -/
inductive DevLookup where
  | notFound
  | found (dkvs : List (String × Jv))
  | typeError
deriving Repr

/-- `api_response.get("Results", {})` then `results.get(imei)` with the
`device is None` check: `.get` on a non-dict raises `AttributeError`
(uncaught); an absent or null device is "not found" (logged, returns
`None`). -/
def lookupDevice (resp : Jv) (imei : String) : DevLookup :=
  match resp with
  | Jv.obj rkvs =>
    match pyDictGetD rkvs "Results" (Jv.obj []) with
    | Jv.obj resKvs =>
      match pyDictGet resKvs imei with
      | none => DevLookup.notFound
      | some (Jv.obj dkvs) => DevLookup.found dkvs
      | some _ => DevLookup.typeError
    | _ => DevLookup.typeError
  | _ => DevLookup.typeError

/-- Outcome of the entry/source selection block of `extract_location_data`
(GPS preferred, cell fallback, then the `if entry is None` check). -/
inductive EntrySel where
  | noEntry
  | entry (e : Jv) (src : String)
  | typeError
deriving Repr

def selectEntry (dkvs : List (String × Jv)) : EntrySel :=
  let sel :=
    match selectFirst (pyDictGet dkvs "gps_data") with
    | SelOut.typeError => EntrySel.typeError
    | SelOut.first e => EntrySel.entry e "gps"
    | SelOut.empty =>
      match selectFirst (pyDictGet dkvs "cell_data") with
      | SelOut.typeError => EntrySel.typeError
      | SelOut.first e => EntrySel.entry e "cell"
      | SelOut.empty => EntrySel.noEntry
  match sel with
  | EntrySel.entry Jv.null _ => EntrySel.noEntry
  | s => s

/-- `entry[k]` as evaluated inside the coordinate `try` block: a missing
key or a non-dict entry raises `KeyError`/`TypeError`, both caught there —
modelled as `none`.  A stored JSON null is returned as is (`float(None)`
then fails with a caught `TypeError`). -/
def entrySubscript (e : Jv) (k : String) : Option Jv :=
  match e with
  | Jv.obj kvs => jvLookupRaw kvs k
  | _ => none

/-- The `try: latitude = float(entry["latitude"]); longitude = ...` block:
`some` iff both coordinates subscript and parse successfully. -/
def parseLatLon (e : Jv) : Option (Rat × Rat) :=
  match entrySubscript e "latitude" with
  | none => none
  | some lv =>
    match pyFloat lv with
    | none => none
    | some la =>
      match entrySubscript e "longitude" with
      | none => none
      | some gv => (pyFloat gv).map (fun lo => (la, lo))

/-- `entry.get(k)` (only reached when `entry` is a dict, since the
coordinate block already succeeded). -/
def pyGetEntry (e : Jv) (k : String) : Option Jv :=
  match e with
  | Jv.obj kvs => pyDictGet kvs k
  | _ => none

/-- Speed: `entry.get("sog")`, tolerant `float` parse (failure → `None`). -/
def speedOf (e : Jv) : Option Rat :=
  match pyGetEntry e "sog" with
  | none => none
  | some v => pyFloat v

/-- Course: `cog not in ("-", None, "")` then tolerant `float` parse —
the sentinel strings `"-"` and `""` (and `None`) stay absent. -/
def courseOf (e : Jv) : Option Rat :=
  match pyGetEntry e "cog" with
  | none => none
  | some (Jv.str "-") => none
  | some (Jv.str "") => none
  | some v => pyFloat v

/-- Fix time: `entry.get("UTC")`, tolerant `int` parse. -/
def utcOf (e : Jv) : Option Int :=
  match pyGetEntry e "UTC" with
  | none => none
  | some v => pyInt v

/-- Quality: `entry.get("quality")`, stored as is. -/
def qualityOf (e : Jv) : Option Jv := pyGetEntry e "quality"

/-- Result of `extract_location_data`: a record, Python `None`, or an
exception the function does not catch. -/
inductive ExtractResult where
  | found (r : Snapshot)
  | noData
  | typeError
deriving Repr

/-- The tail of `extract_location_data` once an entry and source are
selected: coordinates abort the poll on failure, the remaining fields are
parsed independently and tolerantly. -/
def buildSnapshot (e : Jv) (src : String) : ExtractResult :=
  match parseLatLon e with
  | none => ExtractResult.noData
  | some (la, lo) =>
    ExtractResult.found
      { latitude := la, longitude := lo, speed := speedOf e,
        course := courseOf e, utc := utcOf e,
        quality := qualityOf e, source := src }

/-- `extract_location_data(api_response, imei)` (api.py lines 107-177). -/
def extract_location_data (resp : Jv) (imei : String) : ExtractResult :=
  match lookupDevice resp imei with
  | DevLookup.typeError => ExtractResult.typeError
  | DevLookup.notFound => ExtractResult.noData
  | DevLookup.found dkvs =>
    match selectEntry dkvs with
    | EntrySel.typeError => ExtractResult.typeError
    | EntrySel.noEntry => ExtractResult.noData
    | EntrySel.entry e src => buildSnapshot e src

/-! ## SolidGPSApiClient.async_get_data (api.py lines 59-94) -/

/-- Outcome of one `async_get_data` call, as observed by the caller:
the returned payload, `SolidGPSApiError`, its subtype `SolidGPSAuthError`,
or an exception outside the client's own hierarchy. -/
inductive FetchOutcome where
  | ok (data : Jv)
  | apiError
  | authError
  | pyError
deriving Repr

/-- The HTTP exchange underlying one fetch: the status code and the JSON
body (`none` when `resp.json()` raises, i.e. malformed JSON). -/
structure HttpResponse where
  status : Nat
  body : Option Jv

/-- Python `x == n` for `x = data.get("status")` against an int literal
(`True == 1` holds; any non-number compares unequal). -/
def pyEqNum (v : Option Jv) (n : Rat) : Bool :=
  match v with
  | some (Jv.num q) => q == n
  | some (Jv.bool b) => (if b then (1 : Rat) else 0) == n
  | _ => false

/-- `SolidGPSApiClient.async_get_data`: HTTP status check, JSON decode,
the `if not data` emptiness check, then the vendor `status` dispatch
(401 → `SolidGPSAuthError`, non-200 → `SolidGPSApiError`).  `data.get` on
a truthy non-dict body would raise `AttributeError` (uncaught). -/
def async_get_data (resp : HttpResponse) : FetchOutcome :=
  if resp.status != 200 then FetchOutcome.apiError
  else
    match resp.body with
    | none => FetchOutcome.apiError
    | some d =>
      if !(jvTruthy d) then FetchOutcome.apiError
      else
        match d with
        | Jv.obj kvs =>
          let st := pyDictGet kvs "status"
          if pyEqNum st 401 then FetchOutcome.authError
          else if !(pyEqNum st 200) then FetchOutcome.apiError
          else FetchOutcome.ok d
        | _ => FetchOutcome.pyError

/-! ## Coordinator (coordinator.py) -/

/-- The `SolidGPSData` dataclass (models.py): every field defaults to
Python `None`. -/
structure SolidGPSData where
  latitude : Option Rat := none
  longitude : Option Rat := none
  speed : Option Rat := none
  course : Option Rat := none
  utc : Option Int := none
  quality : Option Jv := none
  source : Option String := none
deriving Repr

/-- Outcome of `SolidGPSAuthenticator.async_login` as observed by the
coordinator: fresh credentials, `SolidGPSAuthError` (rejected
credentials), or `SolidGPSLoginError` (transient). -/
inductive LoginOutcome where
  | ok (account_id : String) (auth_code : String)
  | authError
  | loginError
deriving Repr, DecidableEq

/-- Exceptions `_async_update_data` lets escape to the host platform:
`UpdateFailed` (transient), `ConfigEntryAuthFailed` (fatal
reauthentication required), or an exception outside those two. -/
inductive CoordError where
  | updateFailed
  | configEntryAuthFailed
  | pyError
deriving Repr, DecidableEq

/-- The environment of one `_handle_auth_refresh` call: the config-entry
email/password values and the outcomes the two network calls would have. -/
structure CoordEnv where
  email : Option String
  password : Option String
  login : LoginOutcome
  retryFetch : FetchOutcome

/-- Side effects of one `_handle_auth_refresh` call: whether
`authenticator.async_login` ran, the credentials passed to
`api_client.update_credentials` (in-memory) and to
`async_update_entry` (persisted), and how many retried fetches ran. -/
structure RefreshEffects where
  loginAttempted : Bool := false
  inMemoryCreds : Option (String × String) := none
  persistedCreds : Option (String × String) := none
  retryFetches : Nat := 0
deriving Repr, DecidableEq

/-- `if not email or not password` over config-entry values: absent or
empty strings are falsy. -/
def pyTruthyStr : Option String → Bool
  | none => false
  | some s => s != ""

/-- `SolidGPSCoordinator._handle_auth_refresh` (coordinator.py lines
90-136), with its side effects made explicit. -/
def handle_auth_refresh (env : CoordEnv) : Except CoordError Jv × RefreshEffects :=
  if !(pyTruthyStr env.email) || !(pyTruthyStr env.password) then
    (Except.error CoordError.configEntryAuthFailed, {})
  else
    match env.login with
    | LoginOutcome.authError =>
      (Except.error CoordError.configEntryAuthFailed, { loginAttempted := true })
    | LoginOutcome.loginError =>
      (Except.error CoordError.updateFailed, { loginAttempted := true })
    | LoginOutcome.ok aid code =>
      let eff : RefreshEffects :=
        { loginAttempted := true,
          inMemoryCreds := some (aid, code),
          persistedCreds := some (aid, code),
          retryFetches := 1 }
      match env.retryFetch with
      | FetchOutcome.ok d => (Except.ok d, eff)
      | FetchOutcome.authError => (Except.error CoordError.configEntryAuthFailed, eff)
      | FetchOutcome.apiError => (Except.error CoordError.updateFailed, eff)
      | FetchOutcome.pyError => (Except.error CoordError.pyError, eff)

/-- The two lifecycle events fired on the host event bus. -/
inductive MotionEvent where
  | started
  | stopped
deriving Repr, DecidableEq

/-- `x is not None and x > 0`, the moving test used on both the previous
and the current speed. -/
def pyIsMoving : Option Rat → Bool
  | none => false
  | some s => decide (0 < s)

/-- `SolidGPSCoordinator._fire_motion_events` (coordinator.py lines
138-146): the list of events fired on one poll. -/
def fire_motion_events (prev cur : Option Rat) : List MotionEvent :=
  let was := pyIsMoving prev
  let now := pyIsMoving cur
  if now && !was then [MotionEvent.started]
  else if was && !now then [MotionEvent.stopped]
  else []

/-- The `SolidGPSData(...)` construction from the extracted dict
(coordinator.py lines 75-83). -/
def toSolidGPSData (r : Snapshot) : SolidGPSData :=
  { latitude := some r.latitude, longitude := some r.longitude,
    speed := r.speed, course := r.course, utc := r.utc,
    quality := r.quality, source := some r.source }

/-- The environment of one `_async_update_data` call: the outcome the
first fetch would have, the refresh environment used on auth failure, the
configured IMEI and the stored `_previous_speed`. -/
structure UpdateEnv where
  firstFetch : FetchOutcome
  refresh : CoordEnv
  imei : String
  prevSpeed : Option Rat

/-- What one `_async_update_data` call produces: its return value or
escaped exception, the refresh side effects, the motion events fired, and
the `_previous_speed` field afterwards. -/
structure UpdateResult where
  result : Except CoordError SolidGPSData
  effects : RefreshEffects
  events : List MotionEvent
  prevSpeedNext : Option Rat

/-- `SolidGPSCoordinator._async_update_data` (coordinator.py lines
62-88): fetch (with auth-refresh dispatch), extraction, the early return
of an empty `SolidGPSData()` when extraction yields `None` (which leaves
`_previous_speed` untouched and fires nothing), and otherwise the motion
events plus the `_previous_speed` update. -/
def async_update_data (env : UpdateEnv) : UpdateResult :=
  let proceed := fun (d : Jv) (eff : RefreshEffects) =>
    match extract_location_data d env.imei with
    | ExtractResult.typeError =>
      { result := Except.error CoordError.pyError, effects := eff,
        events := [], prevSpeedNext := env.prevSpeed : UpdateResult }
    | ExtractResult.noData =>
      { result := Except.ok {}, effects := eff,
        events := [], prevSpeedNext := env.prevSpeed }
    | ExtractResult.found r =>
      { result := Except.ok (toSolidGPSData r), effects := eff,
        events := fire_motion_events env.prevSpeed r.speed,
        prevSpeedNext := r.speed }
  match env.firstFetch with
  | FetchOutcome.ok d => proceed d {}
  | FetchOutcome.apiError =>
    { result := Except.error CoordError.updateFailed, effects := {},
      events := [], prevSpeedNext := env.prevSpeed }
  | FetchOutcome.pyError =>
    { result := Except.error CoordError.pyError, effects := {},
      events := [], prevSpeedNext := env.prevSpeed }
  | FetchOutcome.authError =>
    match handle_auth_refresh env.refresh with
    | (Except.error e, eff) =>
      { result := Except.error e, effects := eff,
        events := [], prevSpeedNext := env.prevSpeed }
    | (Except.ok d, eff) => proceed d eff

/-- The motion-event lists fired by a run of successful, data-bearing
polls whose snapshots carry the given speeds, starting from the given
`_previous_speed`. -/
def runPollsFrom (prev : Option Rat) : List (Option Rat) → List (List MotionEvent)
  | [] => []
  | s :: rest => fire_motion_events prev s :: runPollsFrom s rest

/-- A fresh coordinator's run: `_previous_speed` starts as `None`
(coordinator.py line 60). -/
def runPolls (speeds : List (Option Rat)) : List (List MotionEvent) :=
  runPollsFrom none speeds

/-- The spec's "moving" regime for a poll's speed: present and strictly
greater than zero (zero or absent speed = not moving). -/
def specMoving (s : Option Rat) : Prop := ∃ v, s = some v ∧ 0 < v

/-! ## Entity adapters (binary_sensor.py, device_tracker.py) -/

/-- `SolidGPSMovingSensor.is_on` (binary_sensor.py lines 39-47). -/
def moving_is_on (coordData : Option SolidGPSData) : Option Bool :=
  match coordData with
  | none => none
  | some d =>
    match d.speed with
    | none => some false
    | some s => some (decide (0 < s))

/-- Result of evaluating a tracker property: its value, or the
`AttributeError` raised when an attribute is missing. -/
inductive PyProp (α : Type) where
  | val (a : α)
  | attributeError (attr : String)
deriving Repr, DecidableEq

/-- `SolidGPSTracker.latitude` (device_tracker.py lines 69-74): when the
coordinator holds no data it returns `None`; otherwise it evaluates
`self.coordinator.data.get("latitude")` — but `SolidGPSData` (models.py)
is a dataclass with fields latitude/longitude/speed/course/utc/quality/
source and defines no attribute named `get`, so the call raises
`AttributeError`. -/
def tracker_latitude (coordData : Option SolidGPSData) : PyProp (Option Rat) :=
  match coordData with
  | none => PyProp.val none
  | some _ => PyProp.attributeError "get"

/-- `SolidGPSTracker.longitude` (device_tracker.py lines 76-81): same
shape as `tracker_latitude`, same missing-`get` failure. -/
def tracker_longitude (coordData : Option SolidGPSData) : PyProp (Option Rat) :=
  match coordData with
  | none => PyProp.val none
  | some _ => PyProp.attributeError "get"

/-! ## SolidGPSAuthenticator dashboard parsing (api.py lines 247-309) -/

def hexVal (c : Char) : Option Nat :=
  if isDigitCh c then some (digitVal c)
  else if 'a' ≤ c && c ≤ 'f' then some (c.toNat - 87)
  else if 'A' ≤ c && c ≤ 'F' then some (c.toNat - 55)
  else none

def escChar : Char → Option Char
  | '"' => some '"'
  | '\\' => some '\\'
  | '/' => some '/'
  | 'b' => some '\x08'
  | 'f' => some '\x0c'
  | 'n' => some '\n'
  | 'r' => some '\r'
  | 't' => some '\t'
  | _ => none

/-- Body of a JSON string after its opening quote: the decoded characters
and the input after the closing quote (surrogate pairing of `\u` escapes
is not modelled; no claim involves it). -/
def parseJsonStringBody : List Char → Option (List Char × List Char)
  | [] => none
  | '"' :: rest => some ([], rest)
  | '\\' :: rest =>
    match rest with
    | 'u' :: h1 :: h2 :: h3 :: h4 :: rest2 =>
      match hexVal h1, hexVal h2, hexVal h3, hexVal h4 with
      | some a, some b, some c, some d =>
        match parseJsonStringBody rest2 with
        | some (cs, r) => some (Char.ofNat (((a * 16 + b) * 16 + c) * 16 + d) :: cs, r)
        | none => none
      | _, _, _, _ => none
    | e :: rest2 =>
      match escChar e with
      | none => none
      | some c =>
        match parseJsonStringBody rest2 with
        | some (cs, r) => some (c :: cs, r)
        | none => none
    | [] => none
  | c :: rest =>
    match parseJsonStringBody rest with
    | some (cs, r) => some (c :: cs, r)
    | none => none

/-- A JSON number (`-? digits frac? exp?`). -/
def parseJsonNumber (cs : List Char) : Option (Rat × List Char) :=
  let (neg, cs1) :=
    match cs with
    | '-' :: r => (true, r)
    | _ => (false, cs)
  let (ip, cs2) := takeDigits cs1
  if ip.isEmpty then none
  else
    let fracRes : Option (List Char × List Char) :=
      match cs2 with
      | '.' :: r =>
        let (fp, r2) := takeDigits r
        if fp.isEmpty then none else some (fp, r2)
      | _ => some ([], cs2)
    match fracRes with
    | none => none
    | some (fp, cs3) =>
      match takeExp cs3 with
      | none => none
      | some (e, cs4) =>
        let mant : Rat :=
          (natOfDigits ip : Rat) + (natOfDigits fp : Rat) / (10 : Rat) ^ fp.length
        some ((if neg then -(applyExp mant e) else applyExp mant e), cs4)

def skipWsJson (cs : List Char) : List Char :=
  cs.dropWhile (fun c => c = ' ' || c = '\t' || c = '\n' || c = '\r')

mutual

/-- Fuel-based recursive-descent model of Python `json.loads` on one
value (objects, arrays, strings, numbers, literals). -/
def parseJsonValue : Nat → List Char → Option (Jv × List Char)
  | 0, _ => none
  | Nat.succ fuel, cs =>
    match skipWsJson cs with
    | '{' :: rest => parseJsonMembers fuel (skipWsJson rest) true
    | '[' :: rest => parseJsonElements fuel (skipWsJson rest) true
    | '"' :: rest =>
      match parseJsonStringBody rest with
      | some (body, r) => some (Jv.str (String.mk body), r)
      | none => none
    | 't' :: 'r' :: 'u' :: 'e' :: rest => some (Jv.bool true, rest)
    | 'f' :: 'a' :: 'l' :: 's' :: 'e' :: rest => some (Jv.bool false, rest)
    | 'n' :: 'u' :: 'l' :: 'l' :: rest => some (Jv.null, rest)
    | other =>
      match parseJsonNumber other with
      | some (q, r) => some (Jv.num q, r)
      | none => none

def parseJsonMembers : Nat → List Char → Bool → Option (Jv × List Char)
  | 0, _, _ => none
  | Nat.succ fuel, cs, first =>
    match cs with
    | '}' :: rest => if first then some (Jv.obj [], rest) else none
    | '"' :: rest =>
      match parseJsonStringBody rest with
      | none => none
      | some (key, r1) =>
        match skipWsJson r1 with
        | ':' :: r2 =>
          match parseJsonValue fuel r2 with
          | none => none
          | some (v, r3) =>
            match skipWsJson r3 with
            | ',' :: r4 =>
              match parseJsonMembers fuel (skipWsJson r4) false with
              | some (Jv.obj kvs, r5) => some (Jv.obj ((String.mk key, v) :: kvs), r5)
              | _ => none
            | '}' :: r4 => some (Jv.obj [(String.mk key, v)], r4)
            | _ => none
        | _ => none
    | _ => none

def parseJsonElements : Nat → List Char → Bool → Option (Jv × List Char)
  | 0, _, _ => none
  | Nat.succ fuel, cs, first =>
    match cs with
    | ']' :: rest => if first then some (Jv.arr [], rest) else none
    | _ =>
      match parseJsonValue fuel cs with
      | none => none
      | some (v, r1) =>
        match skipWsJson r1 with
        | ',' :: r2 =>
          match parseJsonElements fuel (skipWsJson r2) false with
          | some (Jv.arr vs, r3) => some (Jv.arr (v :: vs), r3)
          | _ => none
        | ']' :: r2 => some (Jv.arr [v], r2)
        | _ => none

end

/-- `json.loads` on a character list: one value, then only trailing
whitespace. -/
def jsonLoads (cs : List Char) : Option Jv :=
  match parseJsonValue (cs.length + 1) cs with
  | some (v, rest) => if (skipWsJson rest).isEmpty then some v else none
  | none => none

/-- Consume the literal `lit` from the head of the input. -/
def dropLit : List Char → List Char → Option (List Char)
  | [], rest => some rest
  | _ :: _, [] => none
  | c :: cs, d :: ds => if c = d then dropLit cs ds else none

/-- `\s+`: at least one whitespace character, consumed greedily. -/
def dropSpaces1 : List Char → Option (List Char)
  | [] => none
  | c :: rest => if isPySpace c then some (rest.dropWhile isPySpace) else none

/-- One attempted match of the pattern `var\s+NAME\s*=\s*\{`
(with `NAME` taken literally, as under `re.escape`) at the head of the
input; on success returns the suffix beginning at the opening brace
(the source's `match.end() - 1`). -/
def matchAssignHere (name : List Char) (cs : List Char) : Option (List Char) :=
  match dropLit ['v', 'a', 'r'] cs with
  | none => none
  | some r1 =>
    match dropSpaces1 r1 with
    | none => none
    | some r2 =>
      match dropLit name r2 with
      | none => none
      | some r3 =>
        match skipSpaces r3 with
        | '=' :: r4 =>
          match skipSpaces r4 with
          | '{' :: r5 => some ('{' :: r5)
          | _ => none
        | _ => none

/-- `re.search`: the leftmost position where the assignment pattern
matches. -/
def searchAssign (name : List Char) : List Char → Option (List Char)
  | [] => none
  | c :: cs =>
    match matchAssignHere name (c :: cs) with
    | some r => some r
    | none => searchAssign name cs

/-- The brace-depth-counting loop of `_parse_js_object` (api.py lines
293-309): walking from the opening brace, `{` increments and `}`
decrements the depth; when the depth returns to zero the substring up to
and including that brace is produced; `none` when the braces never
balance. -/
def braceScan : List Char → Int → List Char → Option (List Char)
  | [], _, _ => none
  | c :: cs, depth, acc =>
    if c = '{' then braceScan cs (depth + 1) (c :: acc)
    else if c = '}' then
      if depth - 1 = 0 then some ((c :: acc).reverse)
      else braceScan cs (depth - 1) (c :: acc)
    else braceScan cs depth (c :: acc)

/-- `SolidGPSAuthenticator._parse_js_object(html, var_name)` (api.py
lines 280-309): locate the assignment, brace-count to the matching close,
then `json.loads` the substring; every failure returns `None`. -/
def parse_js_object (html : String) (varName : String) : Option Jv :=
  match searchAssign varName.data html.data with
  | none => none
  | some fromBrace =>
    match braceScan fromBrace 0 [] with
    | none => none
    | some sub => jsonLoads sub

/-- The value `_extract_dashboard_data` returns on success. -/
structure DashboardData where
  account_id : String
  auth_code : String
  devices : Jv
deriving Repr

/-- Python `str(x)` on the values reachable here (strings and numbers;
containers are unreachable in every property proved about it). -/
def pyStr : Jv → String
  | Jv.str s => s
  | Jv.num q => if q.den == 1 then toString q.num else toString q
  | Jv.bool b => if b then "True" else "False"
  | Jv.null => "None"
  | Jv.arr _ => ""
  | Jv.obj _ => ""

/-- `v.get(k)` on a decoded JSON object value. -/
def jvGetField (v : Jv) (k : String) : Option Jv :=
  match v with
  | Jv.obj kvs => pyDictGet kvs k
  | _ => none

/-- `SolidGPSAuthenticator._extract_dashboard_data` (api.py lines
247-278) applied to the dashboard HTML; `none` models raising
`SolidGPSLoginError` (missing/unparsable object literals, falsy parses,
or missing/falsy `AccountID`/`AuthCode`). -/
def extract_dashboard_data (html : String) : Option DashboardData :=
  match parse_js_object html "account_info" with
  | none => none
  | some accountInfo =>
    if !(jvTruthy accountInfo) then none
    else
      match parse_js_object html "device_info" with
      | none => none
      | some deviceInfo =>
        if !(jvTruthy deviceInfo) then none
        else
          match jvGetField accountInfo "AccountID", jvGetField accountInfo "AuthCode" with
          | some aid, some code =>
            if !(jvTruthy aid) || !(jvTruthy code) then none
            else
              some { account_id := pyStr aid, auth_code := pyStr code,
                     devices := deviceInfo }
          | _, _ => none

/-! ## Example inputs used by the witnesses -/

/-- The GPS fix entry of the spec's worked scenario (§8). -/
def entryEx : Jv :=
  Jv.obj [("latitude", Jv.str "1.5"), ("longitude", Jv.str "2.5"),
    ("sog", Jv.str "10"), ("cog", Jv.str "-"), ("UTC", Jv.str "1000"),
    ("quality", Jv.str "3")]

/-- The full response of the spec's worked scenario (§8), device `"123"`. -/
def respEx : Jv :=
  Jv.obj [("status", Jv.num 200),
    ("Results", Jv.obj [("123", Jv.obj [("gps_data", Jv.arr [entryEx])])])]

/-- A response whose device carries an empty GPS list and one cell fix. -/
def respCellEx : Jv :=
  Jv.obj [("status", Jv.num 200),
    ("Results", Jv.obj [("123",
      Jv.obj [("gps_data", Jv.arr []),
              ("cell_data", Jv.arr [entryEx])])])]

/-- A payload whose vendor status field is 401. -/
def kvs401 : List (String × Jv) := [("status", Jv.num 401)]

/-- A GPS fix entry whose course field is the string `"0"`. -/
def entryZeroEx : Jv :=
  Jv.obj [("latitude", Jv.str "1.5"), ("longitude", Jv.str "2.5"),
    ("cog", Jv.str "0")]

/-- A response whose only GPS fix carries course `"0"`. -/
def respZeroEx : Jv :=
  Jv.obj [("Results", Jv.obj [("123",
    Jv.obj [("gps_data", Jv.arr [entryZeroEx])])])]

/-- The dashboard HTML of the spec's worked scenario (§8), with both
object literals present. -/
def htmlEx : String :=
  "<script>var account_info = \x7b\"AccountID\":\"9\",\"AuthCode\":\"abc\", \"nested\":\x7b\"x\":1\x7d\x7d;\nvar device_info = \x7b\"86\":\x7b\"Nickname\":\"car\"\x7d\x7d;</script>"

/-! ## Helper lemmas -/

theorem pyDictGet_nil (k : String) : pyDictGet [] k = none := rfl

theorem pyEqNum_401_iff (v : Option Jv) :
    pyEqNum v 401 = true ↔ v = some (Jv.num 401) := by
  cases v with
  | none => simp [pyEqNum]
  | some jv =>
    cases jv with
    | num q => simp [pyEqNum]
    | bool b =>
      cases b <;> norm_num [pyEqNum] <;> exact fun h => Jv.noConfusion h
    | null => simp [pyEqNum]
    | str s => simp [pyEqNum]
    | arr xs => simp [pyEqNum]
    | obj kvs => simp [pyEqNum]

theorem buildSnapshot_source (e : Jv) (s : String) (r : Snapshot)
    (h : buildSnapshot e s = ExtractResult.found r) : r.source = s := by
  unfold buildSnapshot at h
  cases hp : parseLatLon e with
  | none =>
    rw [hp] at h
    exact ExtractResult.noConfusion h
  | some p =>
    obtain ⟨la, lo⟩ := p
    rw [hp] at h
    cases ExtractResult.found.inj h
    rfl

theorem selectEntry_gps (dkvs : List (String × Jv)) (e : Jv) (rest : List Jv)
    (hg : pyDictGet dkvs "gps_data" = some (Jv.arr (e :: rest)))
    (hnn : e ≠ Jv.null) :
    selectEntry dkvs = EntrySel.entry e "gps" := by
  unfold selectEntry
  rw [hg]
  cases e with
  | null => exact absurd rfl hnn
  | bool b => rfl
  | num q => rfl
  | str s => rfl
  | arr xs => rfl
  | obj kvs => rfl

theorem selectEntry_cell (dkvs : List (String × Jv)) (e : Jv) (rest : List Jv)
    (hg : pyDictGet dkvs "gps_data" = none ∨ pyDictGet dkvs "gps_data" = some (Jv.arr []))
    (hc : pyDictGet dkvs "cell_data" = some (Jv.arr (e :: rest)))
    (hnn : e ≠ Jv.null) :
    selectEntry dkvs = EntrySel.entry e "cell" := by
  unfold selectEntry
  rcases hg with hg | hg <;> rw [hg, hc] <;>
    cases e with
    | null => exact absurd rfl hnn
    | bool b => rfl
    | num q => rfl
    | str s => rfl
    | arr xs => rfl
    | obj kvs => rfl

theorem extract_eq_build (resp : Jv) (imei : String) (dkvs : List (String × Jv))
    (e : Jv) (s : String)
    (hdev : lookupDevice resp imei = DevLookup.found dkvs)
    (hsel : selectEntry dkvs = EntrySel.entry e s) :
    extract_location_data resp imei = buildSnapshot e s := by
  simp only [extract_location_data, hdev, hsel]

theorem buildSnapshot_course (e : Jv) (s : String) (r : Snapshot)
    (h : buildSnapshot e s = ExtractResult.found r) : r.course = courseOf e := by
  unfold buildSnapshot at h
  cases hp : parseLatLon e with
  | none =>
    rw [hp] at h
    exact ExtractResult.noConfusion h
  | some p =>
    obtain ⟨la, lo⟩ := p
    rw [hp] at h
    cases ExtractResult.found.inj h
    rfl

theorem pyIsMoving_iff (s : Option Rat) : pyIsMoving s = true ↔ specMoving s := by
  cases s with
  | none => simp [pyIsMoving, specMoving]
  | some v => simp [pyIsMoving, specMoving]

theorem runPollsFrom_getD (p : Option Rat) (ss : List (Option Rat)) (i : Nat)
    (h : i < ss.length) :
    (runPollsFrom p ss).getD i [] =
      fire_motion_events (if i = 0 then p else ss.getD (i - 1) none)
        (ss.getD i none) := by
  induction ss generalizing p i with
  | nil => cases h
  | cons s rest ih =>
    cases i with
    | zero => simp [runPollsFrom]
    | succ j =>
      simp only [runPollsFrom, List.getD_cons_succ]
      rw [ih s j (by simpa using h)]
      congr 1
      cases j with
      | zero => simp
      | succ k => simp

theorem fire_motion_events_char (prev cur : Option Rat) :
    (fire_motion_events prev cur = [MotionEvent.started] ↔
      (¬ specMoving prev ∧ specMoving cur))
    ∧ (fire_motion_events prev cur = [MotionEvent.stopped] ↔
      (specMoving prev ∧ ¬ specMoving cur))
    ∧ (fire_motion_events prev cur = [] ↔
      (specMoving prev ↔ specMoving cur)) := by
  cases hp : pyIsMoving prev <;> cases hc : pyIsMoving cur <;>
    simp [fire_motion_events, hp, hc, ← pyIsMoving_iff]

theorem selectEntry_src (dkvs : List (String × Jv)) (e : Jv) (s : String)
    (h : selectEntry dkvs = EntrySel.entry e s) : s = "gps" ∨ s = "cell" := by
  unfold selectEntry at h
  cases hg : selectFirst (pyDictGet dkvs "gps_data") with
  | typeError => simp [hg] at h
  | first e1 =>
    simp only [hg] at h
    cases e1 <;> simp at h <;> exact Or.inl h.2.symm
  | empty =>
    cases hc : selectFirst (pyDictGet dkvs "cell_data") with
    | typeError => simp [hg, hc] at h
    | empty => simp [hg, hc] at h
    | first e1 =>
      simp only [hg, hc] at h
      cases e1 <;> simp at h <;> exact Or.inr h.2.symm

/-! ## Claims -/

/-- C3: `async_get_data` raises `SolidGPSAuthError` exactly when the HTTP
request succeeds with HTTP 200 and the JSON payload's `status` field
equals 401; it raises the generic `SolidGPSApiError` for a non-200 HTTP
status, malformed JSON, an empty body, or any payload `status` other than
200 and 401; on a payload `status` of 200 it returns the parsed
payload. -/
theorem C3_async_get_data_status_dispatch (resp : HttpResponse) :
    (async_get_data resp = FetchOutcome.authError ↔
      resp.status = 200 ∧ ∃ kvs, resp.body = some (Jv.obj kvs) ∧
        pyDictGet kvs "status" = some (Jv.num 401))
    ∧ (resp.status ≠ 200 → async_get_data resp = FetchOutcome.apiError)
    ∧ (resp.body = none → async_get_data resp = FetchOutcome.apiError)
    ∧ (∀ d, resp.body = some d → jvTruthy d = false →
        async_get_data resp = FetchOutcome.apiError)
    ∧ (∀ kvs, resp.body = some (Jv.obj kvs) →
        pyEqNum (pyDictGet kvs "status") 401 = false →
        pyEqNum (pyDictGet kvs "status") 200 = false →
        async_get_data resp = FetchOutcome.apiError)
    ∧ (∀ kvs, resp.status = 200 → resp.body = some (Jv.obj kvs) →
        pyDictGet kvs "status" = some (Jv.num 200) →
        async_get_data resp = FetchOutcome.ok (Jv.obj kvs)) := by
  obtain ⟨st, body⟩ := resp
  by_cases hst : st = 200
  · subst hst
    cases body with
    | none => simp [async_get_data]
    | some d =>
      cases d with
      | null => simp [async_get_data, jvTruthy]
      | bool b => cases b <;> simp [async_get_data, jvTruthy]
      | num q =>
        by_cases hq : q = 0
        · subst hq; simp [async_get_data, jvTruthy]
        · simp [async_get_data, jvTruthy, hq]
      | str s =>
        by_cases hs : s = ""
        · subst hs; simp [async_get_data, jvTruthy]
        · simp [async_get_data, jvTruthy, hs]
      | arr xs =>
        cases xs with
        | nil => simp [async_get_data, jvTruthy]
        | cons x xs => simp [async_get_data, jvTruthy]
      | obj kvs =>
        cases kvs with
        | nil => simp [async_get_data, jvTruthy, pyDictGet_nil, pyEqNum]
        | cons kv rest =>
          rcases h401 : pyEqNum (pyDictGet (kv :: rest) "status") 401 with _ | _
          · rcases h200 : pyEqNum (pyDictGet (kv :: rest) "status") 200 with _ | _
            · refine ⟨?_, ?_, ?_, ?_, ?_, ?_⟩
              · constructor
                · intro hA
                  exfalso
                  simp [async_get_data, jvTruthy, List.isEmpty_cons, h401, h200] at hA
                · rintro ⟨-, kvs, hk, hd⟩
                  obtain rfl : kvs = kv :: rest := by simpa using hk.symm
                  rw [hd] at h401
                  simp [pyEqNum] at h401
              · intro h
                exact absurd rfl h
              · intro h
                exact Option.noConfusion h
              · intro d hdd hf
                cases Option.some.inj hdd
                simp [jvTruthy] at hf
              · intro kvs hk hx hy
                obtain rfl : kvs = kv :: rest := by simpa using hk.symm
                simp [async_get_data, jvTruthy, List.isEmpty_cons, h401, h200]
              · intro kvs _ hk hstatus
                obtain rfl : kvs = kv :: rest := by simpa using hk.symm
                rw [hstatus] at h200
                simp [pyEqNum] at h200
            · refine ⟨?_, ?_, ?_, ?_, ?_, ?_⟩
              · constructor
                · intro hA
                  exfalso
                  simp [async_get_data, jvTruthy, List.isEmpty_cons, h401, h200] at hA
                · rintro ⟨-, kvs, hk, hd⟩
                  obtain rfl : kvs = kv :: rest := by simpa using hk.symm
                  rw [hd] at h401
                  simp [pyEqNum] at h401
              · intro h
                exact absurd rfl h
              · intro h
                exact Option.noConfusion h
              · intro d hdd hf
                cases Option.some.inj hdd
                simp [jvTruthy] at hf
              · intro kvs hk h401x h200x
                obtain rfl : kvs = kv :: rest := by simpa using hk.symm
                rw [h200] at h200x
                exact Bool.noConfusion h200x
              · intro kvs _ hk hstatus
                obtain rfl : kvs = kv :: rest := by simpa using hk.symm
                simp [async_get_data, jvTruthy, List.isEmpty_cons, h401, h200]
          · have hd : pyDictGet (kv :: rest) "status" = some (Jv.num 401) :=
              (pyEqNum_401_iff _).mp h401
            refine ⟨?_, ?_, ?_, ?_, ?_, ?_⟩
            · constructor
              · intro _
                exact ⟨rfl, kv :: rest, rfl, hd⟩
              · intro _
                simp [async_get_data, jvTruthy, h401]
            · intro h
              exact absurd rfl h
            · intro h
              exact Option.noConfusion h
            · intro d hdd hf
              cases Option.some.inj hdd
              simp [jvTruthy] at hf
            · intro kvs hk h401x h200x
              obtain rfl : kvs = kv :: rest := by simpa using hk.symm
              rw [h401] at h401x
              exact Bool.noConfusion h401x
            · intro kvs _ hk hstatus
              obtain rfl : kvs = kv :: rest := by simpa using hk.symm
              rw [hd] at hstatus
              simp only [Option.some.injEq, Jv.num.injEq] at hstatus
              norm_num at hstatus
  · cases body with
    | none => simp [async_get_data, hst]
    | some d => simp [async_get_data, hst]

/-- Witness for C3 at concrete inputs: a 200 response whose payload
status is 401 yields `authError`, and a 200 response with payload status
500 yields `apiError`. -/
theorem C3_witness :
    async_get_data { status := 200, body := some (Jv.obj kvs401) } =
      FetchOutcome.authError
    ∧ async_get_data { status := 200, body := some (Jv.obj [("status", Jv.num 500)]) } =
      FetchOutcome.apiError := by
  constructor
  · exact (C3_async_get_data_status_dispatch
      { status := 200, body := some (Jv.obj kvs401) }).1.mpr
      ⟨rfl, kvs401, rfl, by norm_num [kvs401, pyDictGet, jvLookupRaw]⟩
  · exact (C3_async_get_data_status_dispatch
      { status := 200, body := some (Jv.obj [("status", Jv.num 500)]) }).2.2.2.2.1
      [("status", Jv.num 500)] rfl
      (by norm_num [pyDictGet, jvLookupRaw, pyEqNum])
      (by norm_num [pyDictGet, jvLookupRaw, pyEqNum])

/-- C4: for every response in which the device's GPS fix list is
non-empty, `extract_location_data` builds the snapshot from the first GPS
entry and tags it `source = "gps"`, regardless of the cell-data contents;
when the GPS list is empty or missing but the cell list is non-empty, it
builds the snapshot from the first cell entry and tags it
`source = "cell"`. -/
theorem C4_extract_source_preference (resp : Jv) (imei : String)
    (dkvs : List (String × Jv)) (e : Jv) (rest : List Jv)
    (hdev : lookupDevice resp imei = DevLookup.found dkvs)
    (hnn : e ≠ Jv.null) :
    (pyDictGet dkvs "gps_data" = some (Jv.arr (e :: rest)) →
      extract_location_data resp imei = buildSnapshot e "gps"
      ∧ ∀ r, extract_location_data resp imei = ExtractResult.found r →
          r.source = "gps")
    ∧ ((pyDictGet dkvs "gps_data" = none ∨
          pyDictGet dkvs "gps_data" = some (Jv.arr [])) →
        pyDictGet dkvs "cell_data" = some (Jv.arr (e :: rest)) →
        extract_location_data resp imei = buildSnapshot e "cell"
        ∧ ∀ r, extract_location_data resp imei = ExtractResult.found r →
            r.source = "cell") := by
  constructor
  · intro hg
    have hx : extract_location_data resp imei = buildSnapshot e "gps" :=
      extract_eq_build resp imei dkvs e "gps" hdev (selectEntry_gps dkvs e rest hg hnn)
    refine ⟨hx, fun r hr => ?_⟩
    rw [hx] at hr
    exact buildSnapshot_source e "gps" r hr
  · intro hg hc
    have hx : extract_location_data resp imei = buildSnapshot e "cell" :=
      extract_eq_build resp imei dkvs e "cell" hdev (selectEntry_cell dkvs e rest hg hc hnn)
    refine ⟨hx, fun r hr => ?_⟩
    rw [hx] at hr
    exact buildSnapshot_source e "cell" r hr

/-- Witness for C4: the spec's scenario response is extracted from its
first GPS entry with source `"gps"`, and the cell-fallback response from
its first cell entry with source `"cell"`. -/
theorem C4_witness :
    extract_location_data respEx "123" = buildSnapshot entryEx "gps"
    ∧ extract_location_data respCellEx "123" = buildSnapshot entryEx "cell" := by
  constructor
  · exact ((C4_extract_source_preference respEx "123"
      [("gps_data", Jv.arr [entryEx])] entryEx [] rfl
      (fun h => Jv.noConfusion h)).1 rfl).1
  · exact ((C4_extract_source_preference respCellEx "123"
      [("gps_data", Jv.arr []), ("cell_data", Jv.arr [entryEx])] entryEx [] rfl
      (fun h => Jv.noConfusion h)).2 (Or.inr rfl) rfl).1

/-- C5: `extract_location_data` returns `None` exactly when the device
identifier is missing from the response's results, when both the GPS and
cell fix lists yield no entry, or when latitude or longitude is missing
or unparsable as a float; a missing or unparsable speed, course, or
fix-time field is individually omitted from the result without aborting
extraction of the remaining fields. -/
theorem C5_extract_absent_exactly (resp : Jv) (imei : String) :
    (extract_location_data resp imei = ExtractResult.noData ↔
      lookupDevice resp imei = DevLookup.notFound
      ∨ (∃ dkvs, lookupDevice resp imei = DevLookup.found dkvs ∧
          selectEntry dkvs = EntrySel.noEntry)
      ∨ (∃ dkvs e s, lookupDevice resp imei = DevLookup.found dkvs ∧
          selectEntry dkvs = EntrySel.entry e s ∧ parseLatLon e = none))
    ∧ (∀ dkvs e s la lo,
        lookupDevice resp imei = DevLookup.found dkvs →
        selectEntry dkvs = EntrySel.entry e s →
        parseLatLon e = some (la, lo) →
        extract_location_data resp imei =
          ExtractResult.found
            { latitude := la, longitude := lo, speed := speedOf e,
              course := courseOf e, utc := utcOf e, quality := qualityOf e,
              source := s }
        ∧ (pyGetEntry e "sog" = none → speedOf e = none)
        ∧ (∀ v, pyGetEntry e "sog" = some v → pyFloat v = none → speedOf e = none)
        ∧ (pyGetEntry e "UTC" = none → utcOf e = none)
        ∧ (∀ v, pyGetEntry e "UTC" = some v → pyInt v = none → utcOf e = none)
        ∧ (pyGetEntry e "cog" = none → courseOf e = none)) := by
  constructor
  · cases hdev : lookupDevice resp imei with
    | typeError => simp [extract_location_data, hdev]
    | notFound => simp [extract_location_data, hdev]
    | found dkvs =>
      cases hsel : selectEntry dkvs with
      | typeError => simp [extract_location_data, hdev, hsel]
      | noEntry => simp [extract_location_data, hdev, hsel]
      | entry e s =>
        cases hll : parseLatLon e with
        | none => simp [extract_location_data, hdev, hsel, buildSnapshot, hll]
        | some p =>
          obtain ⟨la, lo⟩ := p
          simp [extract_location_data, hdev, hsel, buildSnapshot, hll]
  · intro dkvs e s la lo hdev hsel hll
    refine ⟨?_, ?_, ?_, ?_, ?_, ?_⟩
    · have hx := extract_eq_build resp imei dkvs e s hdev hsel
      rw [hx]
      simp [buildSnapshot, hll]
    · intro h
      simp [speedOf, h]
    · intro v hv hp
      simp [speedOf, hv, hp]
    · intro h
      simp [utcOf, h]
    · intro v hv hp
      simp [utcOf, hv, hp]
    · intro h
      simp [courseOf, h]

/-- Witness for C5 at the spec's scenario response: extraction succeeds
with the per-field parsers applied to the first GPS entry. -/
theorem C5_witness :
    ∃ la lo, extract_location_data respEx "123" =
      ExtractResult.found
        { latitude := la, longitude := lo, speed := speedOf entryEx,
          course := courseOf entryEx, utc := utcOf entryEx,
          quality := qualityOf entryEx, source := "gps" } := by
  obtain ⟨p, hp⟩ : ∃ p, parseLatLon entryEx = some p := ⟨_, rfl⟩
  obtain ⟨la, lo⟩ := p
  exact ⟨la, lo, ((C5_extract_absent_exactly respEx "123").2
    [("gps_data", Jv.arr [entryEx])] entryEx "gps" la lo rfl rfl hp).1⟩

/-- C6: a fix entry whose course value is the string `"-"` or the empty
string yields a snapshot whose course is absent (not zero); the string
`"0"` is parsed as a real heading of 0. -/
theorem C6_course_sentinel (resp : Jv) (imei : String)
    (dkvs : List (String × Jv)) (e : Jv) (s : String) (r : Snapshot)
    (hdev : lookupDevice resp imei = DevLookup.found dkvs)
    (hsel : selectEntry dkvs = EntrySel.entry e s)
    (hr : extract_location_data resp imei = ExtractResult.found r) :
    ((pyGetEntry e "cog" = some (Jv.str "-") ∨
        pyGetEntry e "cog" = some (Jv.str "")) → r.course = none)
    ∧ (pyGetEntry e "cog" = some (Jv.str "0") → r.course = some 0) := by
  have hx := extract_eq_build resp imei dkvs e s hdev hsel
  rw [hx] at hr
  have hcourse : r.course = courseOf e := buildSnapshot_course e s r hr
  constructor
  · rintro (h | h) <;> rw [hcourse] <;> simp [courseOf, h]
  · intro h
    rw [hcourse]
    simp +decide [courseOf, h, pyFloat, parseFloatChars, skipSpaces, takeSign,
      takeDigits, takeExp, natOfDigits, digitVal, isDigitCh, isPySpace, applyExp]

/-- Witness for C6: the scenario entry with course `"-"` extracts with an
absent course, and the entry with course `"0"` extracts with course 0. -/
theorem C6_witness :
    ∃ r r0, extract_location_data respEx "123" = ExtractResult.found r
      ∧ r.course = none
      ∧ extract_location_data respZeroEx "123" = ExtractResult.found r0
      ∧ r0.course = some 0 := by
  obtain ⟨r, hr⟩ : ∃ r, extract_location_data respEx "123" = ExtractResult.found r :=
    ⟨_, rfl⟩
  obtain ⟨r0, hr0⟩ : ∃ r0, extract_location_data respZeroEx "123" = ExtractResult.found r0 :=
    ⟨_, rfl⟩
  refine ⟨r, r0, hr, ?_, hr0, ?_⟩
  · exact (C6_course_sentinel respEx "123" [("gps_data", Jv.arr [entryEx])]
      entryEx "gps" r rfl rfl hr).1 (Or.inl rfl)
  · exact (C6_course_sentinel respZeroEx "123" [("gps_data", Jv.arr [entryZeroEx])]
      entryZeroEx "gps" r0 rfl rfl hr0).2 rfl

/-- C2: over any run of polls, the motion-started event fires exactly
once on a poll where the speed transitions from ≤0-or-absent (previous
poll) to >0 (current poll), the motion-stopped event fires exactly once
on the reverse transition, and no event fires on a poll whose speed stays
within the same regime as the previous poll; absent speed counts as not
moving, and the run starts not moving. -/
theorem C2_motion_event_transitions (speeds : List (Option Rat)) (i : Nat)
    (h : i < speeds.length) :
    ((runPolls speeds).getD i [] = [MotionEvent.started] ↔
      (¬ specMoving (if i = 0 then none else speeds.getD (i - 1) none)
        ∧ specMoving (speeds.getD i none)))
    ∧ ((runPolls speeds).getD i [] = [MotionEvent.stopped] ↔
      (specMoving (if i = 0 then none else speeds.getD (i - 1) none)
        ∧ ¬ specMoving (speeds.getD i none)))
    ∧ ((runPolls speeds).getD i [] = [] ↔
      (specMoving (if i = 0 then none else speeds.getD (i - 1) none) ↔
        specMoving (speeds.getD i none))) := by
  rw [runPolls, runPollsFrom_getD none speeds i h]
  exact fire_motion_events_char _ _

/-- Witness for C2: in the run with speeds 5, 5, 0 the third poll — and
only a >0-to-0 transition poll — fires exactly the stopped event. -/
theorem C2_witness :
    (runPolls [some 5, some 5, some 0]).getD 2 [] = [MotionEvent.stopped] := by
  have h := C2_motion_event_transitions [some 5, some 5, some 0] 2 (by norm_num)
  apply h.2.1.mpr
  constructor
  · exact ⟨5, rfl, by norm_num⟩
  · rintro ⟨v, hv, hp⟩
    cases Option.some.inj hv
    exact absurd hp (lt_irrefl 0)

/-- C1: when a poll's fetch fails with `SolidGPSAuthError` and email and
password are present in the config entry, the coordinator invokes the
authenticator's login; on login success it updates the API client's
in-memory credentials and the persisted config-entry credentials and then
performs exactly one retried fetch; a second `SolidGPSAuthError` on that
retry raises `ConfigEntryAuthFailed`; any other `SolidGPSApiError` on the
retry, and any `SolidGPSLoginError` from login, raise `UpdateFailed`; a
`SolidGPSAuthError` from login itself raises `ConfigEntryAuthFailed`. -/
theorem C1_auth_refresh_flow (env : UpdateEnv)
    (hfetch : env.firstFetch = FetchOutcome.authError)
    (hemail : pyTruthyStr env.refresh.email = true)
    (hpass : pyTruthyStr env.refresh.password = true) :
    (async_update_data env).effects.loginAttempted = true
    ∧ (∀ aid code, env.refresh.login = LoginOutcome.ok aid code →
        (async_update_data env).effects.inMemoryCreds = some (aid, code)
        ∧ (async_update_data env).effects.persistedCreds = some (aid, code)
        ∧ (async_update_data env).effects.retryFetches = 1
        ∧ (env.refresh.retryFetch = FetchOutcome.authError →
            (async_update_data env).result =
              Except.error CoordError.configEntryAuthFailed)
        ∧ (env.refresh.retryFetch = FetchOutcome.apiError →
            (async_update_data env).result = Except.error CoordError.updateFailed))
    ∧ (env.refresh.login = LoginOutcome.loginError →
        (async_update_data env).result = Except.error CoordError.updateFailed
        ∧ (async_update_data env).effects.retryFetches = 0)
    ∧ (env.refresh.login = LoginOutcome.authError →
        (async_update_data env).result =
          Except.error CoordError.configEntryAuthFailed
        ∧ (async_update_data env).effects.retryFetches = 0) := by
  obtain ⟨ff, ⟨em, pw, lg, rf⟩, im, prev⟩ := env
  simp only at hfetch hemail hpass
  subst hfetch
  have hguard : (!(pyTruthyStr em) || !(pyTruthyStr pw)) = false := by
    rw [hemail, hpass]
    rfl
  cases lg with
  | ok aid code =>
    cases rf with
    | ok d =>
      refine ⟨?_, ?_, ?_, ?_⟩
      · simp only [async_update_data, handle_auth_refresh, hguard,
          Bool.false_eq_true, if_false]
        cases extract_location_data d im <;> rfl
      · intro a c hac
        injection hac with h1 h2
        subst h1
        subst h2
        refine ⟨?_, ?_, ?_, ?_, ?_⟩ <;>
          first
          | (intro hx; exact FetchOutcome.noConfusion hx)
          | (simp only [async_update_data, handle_auth_refresh, hguard,
               Bool.false_eq_true, if_false]
             cases extract_location_data d im <;> rfl)
      · intro hx
        exact LoginOutcome.noConfusion hx
      · intro hx
        exact LoginOutcome.noConfusion hx
    | apiError =>
      refine ⟨?_, ?_, ?_, ?_⟩
      · simp [async_update_data, handle_auth_refresh, hguard]
      · intro a c hac
        injection hac with h1 h2
        subst h1
        subst h2
        refine ⟨?_, ?_, ?_, ?_, ?_⟩ <;>
          first
          | (intro hx; exact FetchOutcome.noConfusion hx)
          | (intro hx; simp [async_update_data, handle_auth_refresh, hguard])
          | simp [async_update_data, handle_auth_refresh, hguard]
      · intro hx
        exact LoginOutcome.noConfusion hx
      · intro hx
        exact LoginOutcome.noConfusion hx
    | authError =>
      refine ⟨?_, ?_, ?_, ?_⟩
      · simp [async_update_data, handle_auth_refresh, hguard]
      · intro a c hac
        injection hac with h1 h2
        subst h1
        subst h2
        refine ⟨?_, ?_, ?_, ?_, ?_⟩ <;>
          first
          | (intro hx; exact FetchOutcome.noConfusion hx)
          | (intro hx; simp [async_update_data, handle_auth_refresh, hguard])
          | simp [async_update_data, handle_auth_refresh, hguard]
      · intro hx
        exact LoginOutcome.noConfusion hx
      · intro hx
        exact LoginOutcome.noConfusion hx
    | pyError =>
      refine ⟨?_, ?_, ?_, ?_⟩
      · simp [async_update_data, handle_auth_refresh, hguard]
      · intro a c hac
        injection hac with h1 h2
        subst h1
        subst h2
        refine ⟨?_, ?_, ?_, ?_, ?_⟩ <;>
          first
          | (intro hx; exact FetchOutcome.noConfusion hx)
          | simp [async_update_data, handle_auth_refresh, hguard]
      · intro hx
        exact LoginOutcome.noConfusion hx
      · intro hx
        exact LoginOutcome.noConfusion hx
  | loginError =>
    refine ⟨?_, ?_, ?_, ?_⟩
    · simp [async_update_data, handle_auth_refresh, hguard]
    · intro a c hac
      exact LoginOutcome.noConfusion hac
    · intro hx
      constructor <;> simp [async_update_data, handle_auth_refresh, hguard]
    · intro hx
      exact LoginOutcome.noConfusion hx
  | authError =>
    refine ⟨?_, ?_, ?_, ?_⟩
    · simp [async_update_data, handle_auth_refresh, hguard]
    · intro a c hac
      exact LoginOutcome.noConfusion hac
    · intro hx
      exact LoginOutcome.noConfusion hx
    · intro hx
      constructor <;> simp [async_update_data, handle_auth_refresh, hguard]

/-- Witness for C1: a concrete auth-expired poll whose re-login succeeds
but whose retried fetch is rejected again — the credentials are updated,
exactly one retry runs, and the outcome is the fatal
reauthentication-required condition. -/
theorem C1_witness :
    (async_update_data
      { firstFetch := FetchOutcome.authError,
        refresh :=
          { email := some "user@example.com", password := some "pw",
            login := LoginOutcome.ok "9" "abc",
            retryFetch := FetchOutcome.authError },
        imei := "123", prevSpeed := none }).effects.inMemoryCreds = some ("9", "abc")
    ∧ (async_update_data
      { firstFetch := FetchOutcome.authError,
        refresh :=
          { email := some "user@example.com", password := some "pw",
            login := LoginOutcome.ok "9" "abc",
            retryFetch := FetchOutcome.authError },
        imei := "123", prevSpeed := none }).effects.retryFetches = 1
    ∧ (async_update_data
      { firstFetch := FetchOutcome.authError,
        refresh :=
          { email := some "user@example.com", password := some "pw",
            login := LoginOutcome.ok "9" "abc",
            retryFetch := FetchOutcome.authError },
        imei := "123", prevSpeed := none }).result =
      Except.error CoordError.configEntryAuthFailed := by
  have h := C1_auth_refresh_flow
    { firstFetch := FetchOutcome.authError,
      refresh :=
        { email := some "user@example.com", password := some "pw",
          login := LoginOutcome.ok "9" "abc",
          retryFetch := FetchOutcome.authError },
      imei := "123", prevSpeed := none } rfl rfl rfl
  obtain ⟨-, hok, -, -⟩ := h
  obtain ⟨hmem, -, hcount, hfatal, -⟩ := hok "9" "abc" rfl
  exact ⟨hmem, hcount, hfatal rfl⟩

/-- C7: for dashboard HTML containing the assignment
`var account_info = {"AccountID":"9","AuthCode":"abc", "nested":{"x":1}};`,
the brace-depth-counting parser returns the object
`{AccountID: "9", AuthCode: "abc", nested: {x: 1}}` despite the nested
object; and dashboard extraction fails (with `SolidGPSLoginError`) when
either the `account_info` or `device_info` object is missing, unparsable
as JSON, or lacks the `AccountID` or `AuthCode` field. -/
theorem C7_dashboard_brace_parsing :
    (∃ q : Rat, parse_js_object htmlEx "account_info" =
      some (Jv.obj [("AccountID", Jv.str "9"), ("AuthCode", Jv.str "abc"),
        ("nested", Jv.obj [("x", Jv.num q)])]) ∧ q = 1)
    ∧ (∀ html, parse_js_object html "account_info" = none →
        extract_dashboard_data html = none)
    ∧ (∀ html, parse_js_object html "device_info" = none →
        extract_dashboard_data html = none)
    ∧ (∀ html kvs, parse_js_object html "account_info" = some (Jv.obj kvs) →
        pyDictGet kvs "AccountID" = none → extract_dashboard_data html = none)
    ∧ (∀ html kvs, parse_js_object html "account_info" = some (Jv.obj kvs) →
        pyDictGet kvs "AuthCode" = none → extract_dashboard_data html = none) := by
  refine ⟨?_, ?_, ?_, ?_, ?_⟩
  · refine ⟨_, rfl, ?_⟩
    norm_num [natOfDigits, digitVal, applyExp]
    decide
  · intro html h
    simp [extract_dashboard_data, h]
  · intro html h
    cases hai : parse_js_object html "account_info" with
    | none => simp [extract_dashboard_data, hai]
    | some ai => simp [extract_dashboard_data, hai, h]
  · intro html kvs hai hacc
    cases hdi : parse_js_object html "device_info" with
    | none => simp [extract_dashboard_data, hai, hdi]
    | some di => simp [extract_dashboard_data, hai, hdi, jvGetField, hacc]
  · intro html kvs hai hcode
    cases hdi : parse_js_object html "device_info" with
    | none => simp [extract_dashboard_data, hai, hdi]
    | some di =>
      cases hacc : pyDictGet kvs "AccountID" with
      | none => simp [extract_dashboard_data, hai, hdi, jvGetField, hacc]
      | some aid => simp [extract_dashboard_data, hai, hdi, jvGetField, hacc, hcode]

/-- Witness for C7: dashboard HTML with no `account_info` assignment at
all fails extraction. -/
theorem C7_witness : extract_dashboard_data "<html>no objects here</html>" = none :=
  C7_dashboard_brace_parsing.2.1 "<html>no objects here</html>" rfl

/-- C8: every snapshot `extract_location_data` produces carries source
tag `"gps"` iff it was derived from the GPS fix list and `"cell"` iff it
was derived from the cell-tower fallback list; and when no data is
available the coordinator's poll stores the empty marker record (every
field `None`, in particular no source tag) rather than a snapshot. -/
theorem C8_source_tag_invariant :
    (∀ resp imei r, extract_location_data resp imei = ExtractResult.found r →
      (r.source = "gps" ∨ r.source = "cell")
      ∧ (r.source = "gps" ↔ ∃ dkvs e,
          lookupDevice resp imei = DevLookup.found dkvs
          ∧ selectEntry dkvs = EntrySel.entry e "gps"
          ∧ buildSnapshot e "gps" = ExtractResult.found r)
      ∧ (r.source = "cell" ↔ ∃ dkvs e,
          lookupDevice resp imei = DevLookup.found dkvs
          ∧ selectEntry dkvs = EntrySel.entry e "cell"
          ∧ buildSnapshot e "cell" = ExtractResult.found r))
    ∧ (∀ env d, env.firstFetch = FetchOutcome.ok d →
        extract_location_data d env.imei = ExtractResult.noData →
        (async_update_data env).result = Except.ok {}
        ∧ ({} : SolidGPSData).source = none
        ∧ ({} : SolidGPSData).latitude = none) := by
  constructor
  · intro resp imei r hr
    unfold extract_location_data at hr
    cases hdev : lookupDevice resp imei with
    | typeError =>
      rw [hdev] at hr
      exact ExtractResult.noConfusion hr
    | notFound =>
      rw [hdev] at hr
      exact ExtractResult.noConfusion hr
    | found dkvs =>
      rw [hdev] at hr
      replace hr : (match selectEntry dkvs with
        | EntrySel.typeError => ExtractResult.typeError
        | EntrySel.noEntry => ExtractResult.noData
        | EntrySel.entry e2 src => buildSnapshot e2 src) = ExtractResult.found r := hr
      cases hsel : selectEntry dkvs with
      | typeError =>
        rw [hsel] at hr
        exact ExtractResult.noConfusion hr
      | noEntry =>
        rw [hsel] at hr
        exact ExtractResult.noConfusion hr
      | entry e s =>
        rw [hsel] at hr
        have hb : buildSnapshot e s = ExtractResult.found r := hr
        have hsrc : r.source = s := buildSnapshot_source e s r hb
        refine ⟨?_, ?_, ?_⟩
        · rw [hsrc]
          exact selectEntry_src dkvs e s hsel
        · constructor
          · intro hgps
            refine ⟨dkvs, e, rfl, ?_, ?_⟩
            · rw [← hsrc, hgps] at hsel
              exact hsel
            · rw [← hsrc, hgps] at hb
              exact hb
          · rintro ⟨dkvs2, e2, hdev2, hsel2, hb2⟩
            obtain rfl : dkvs = dkvs2 := DevLookup.found.inj hdev2
            rw [hsel] at hsel2
            injection hsel2 with he hs
            rw [hsrc, hs]
        · constructor
          · intro hcell
            refine ⟨dkvs, e, rfl, ?_, ?_⟩
            · rw [← hsrc, hcell] at hsel
              exact hsel
            · rw [← hsrc, hcell] at hb
              exact hb
          · rintro ⟨dkvs2, e2, hdev2, hsel2, hb2⟩
            obtain rfl : dkvs = dkvs2 := DevLookup.found.inj hdev2
            rw [hsel] at hsel2
            injection hsel2 with he hs
            rw [hsrc, hs]
  · intro env d hf hnd
    refine ⟨?_, rfl, rfl⟩
    simp [async_update_data, hf, hnd]

/-- Witness for C8: the scenario snapshot carries tag `"gps"`, and a
response carrying no fix data stores the empty marker. -/
theorem C8_witness :
    (∃ r, extract_location_data respEx "123" = ExtractResult.found r
      ∧ (r.source = "gps" ∨ r.source = "cell"))
    ∧ (async_update_data
        { firstFetch := FetchOutcome.ok (Jv.obj []),
          refresh :=
            { email := none, password := none,
              login := LoginOutcome.loginError,
              retryFetch := FetchOutcome.apiError },
          imei := "123", prevSpeed := none }).result = Except.ok {} := by
  constructor
  · obtain ⟨r, hr⟩ : ∃ r, extract_location_data respEx "123" = ExtractResult.found r :=
      ⟨_, rfl⟩
    exact ⟨r, hr, ((C8_source_tag_invariant.1 respEx "123" r hr).1)⟩
  · exact ((C8_source_tag_invariant.2
      { firstFetch := FetchOutcome.ok (Jv.obj []),
        refresh :=
          { email := none, password := none,
            login := LoginOutcome.loginError,
            retryFetch := FetchOutcome.apiError },
        imei := "123", prevSpeed := none } (Jv.obj []) rfl rfl).1)

/-- C9 (code bug): the device-tracker latitude/longitude properties are
specified to return the stored snapshot's coordinates, and they do return
`None` when no data is stored; but with a snapshot stored the code calls
`.get(...)` on the `SolidGPSData` dataclass, which has no such attribute,
so the property raises `AttributeError` instead of returning the
coordinate. -/
theorem C9_tracker_attribute_error :
    tracker_latitude none = PyProp.val none
    ∧ tracker_longitude none = PyProp.val none
    ∧ tracker_latitude (some { latitude := some (3/2), longitude := some (5/2) }) =
        PyProp.attributeError "get"
    ∧ tracker_longitude (some { latitude := some (3/2), longitude := some (5/2) }) =
        PyProp.attributeError "get" :=
  ⟨rfl, rfl, rfl, rfl⟩

/-- C10: the moving binary sensor's `is_on` returns `None` (unknown) when
the coordinator holds no data at all, returns `False` when a record is
held but its speed is absent, and returns `True` exactly when the held
speed is strictly greater than zero. -/
theorem C10_moving_sensor_is_on (coordData : Option SolidGPSData) :
    (moving_is_on coordData = none ↔ coordData = none)
    ∧ (∀ d, coordData = some d → d.speed = none →
        moving_is_on coordData = some false)
    ∧ (moving_is_on coordData = some true ↔
        ∃ d s, coordData = some d ∧ d.speed = some s ∧ 0 < s) := by
  refine ⟨?_, ?_, ?_⟩
  · cases coordData with
    | none => simp [moving_is_on]
    | some d => cases hs : d.speed <;> simp [moving_is_on, hs]
  · rintro d rfl hs
    simp [moving_is_on, hs]
  · cases coordData with
    | none => simp [moving_is_on]
    | some d =>
      cases hs : d.speed with
      | none => simp [moving_is_on, hs]
      | some v => simp [moving_is_on, hs]

/-- Witness for C10: no data gives unknown, a held speed of 5 gives
`True`. -/
theorem C10_witness :
    moving_is_on none = none
    ∧ moving_is_on (some { speed := some 5 }) = some true := by
  constructor
  · exact (C10_moving_sensor_is_on none).1.mpr rfl
  · exact (C10_moving_sensor_is_on (some { speed := some 5 })).2.2.mpr
      ⟨{ speed := some 5 }, 5, rfl, rfl, by norm_num⟩

end SolidGPS
